import Mathlib

/-!
Shallow embedding of the CAN frame retransmission worker
(`src/core/can_logic.py`, class `CANWorker`) and proofs about it.

Python floats are modelled as exact rationals (`ℚ`); the operations the
code performs on them (comparison, `max`, `min`, doubling, subtraction)
are exact in both models.  `time.time()` reads and the outcomes of the
external `python-can` bus calls (`recv`, `send`, `Bus(...)` construction,
`shutdown`) are supplied as oracle parameters, one per call site, so that
the embedded functions are pure.  Qt signal emissions and `time.sleep`
calls are recorded in explicit traces.
-/

namespace CanRelay

/-- Substring containment, the model of Python's `pat in text`. -/
def strContains (text pat : String) : Bool := decide (pat.data <:+: text.data)

/-- Lowercasing of a Python string (`str.lower()`), mapped over the
characters. -/
def lowerStr (s : String) : String := String.mk (s.data.map Char.toLower)

/-- A CAN message as constructed by `can.Message(...)`: arbitration id,
payload bytes, declared length code, extended-id flag and a wall-clock
timestamp. -/
structure Msg where
  arbitration_id : Nat
  data : List Nat
  dlc : Nat
  is_extended_id : Bool
  timestamp : ℚ
deriving Repr, DecidableEq

/-- The rewrite table: `rewrite_rules.get(arbitration_id)` modelled over an
association list. -/
def rulesGet (rules : List (Nat × Nat)) (a : Nat) : Option Nat :=
  (rules.find? (fun p => p.1 == a)).map Prod.snd

/-- Outcome of one `bus.send(msg, timeout=0.1)` call: success, a raised
`can.CanError` with the given message text, or any other exception. -/
inductive SendOutcome where
  | ok
  | canErr (text : String)
  | exc
deriving Repr, DecidableEq

/-- Overflow classification of a `can.CanError` text, from
`_send_with_retry_on`: the lowercased text contains "overflow",
"tx buffer", "transmit buffer" or "-13". -/
def isOverflowText (lower : String) : Bool :=
  strContains lower "overflow" || strContains lower "tx buffer" ||
    strContains lower "transmit buffer" || strContains lower "-13"

/-- The `CANWorker` attributes relevant to sending, with the values the
fields hold at call time (`__init__` clamping is modelled separately by
`initWorker`). -/
structure WState where
  is_running : Bool
  max_send_retries : Int
  send_retry_initial_delay : ℚ
  tx_min_gap : ℚ
  tx_overflow_cooldown : ℚ
  last_tx_time : ℚ
deriving Repr, DecidableEq

/-- Result of a `_send_with_retry_on` call: the returned boolean, the
value of `self._last_tx_time` afterwards, the number of `bus.send`
attempts made, and the `time.sleep` calls recorded per call site
(throttle gap sleep, backoff sleeps between attempts, overflow cooldown
sleep). -/
structure SendRes where
  sent : Bool
  last_tx_time : ℚ
  attemptsMade : Nat
  throttleSleeps : List ℚ
  backoffSleeps : List ℚ
  cooldownSleeps : List ℚ
deriving Repr, DecidableEq

/-- The `for attempt in range(1, attempts + 1)` retry loop of
`_send_with_retry_on`.  One oracle outcome is consumed per `bus.send`
attempt; `tSent` is the `time.time()` read after a successful send.
An exhausted oracle stands for the unreachable fall-through
`return False` after the loop. -/
def send_loop (st : WState) (tSent : ℚ) (attempts : Nat) :
    List SendOutcome → Nat → ℚ → SendRes
  | [], _, _ => ⟨false, st.last_tx_time, 0, [], [], []⟩
  | o :: rest, attempt, delay =>
    match o with
    | .ok => ⟨true, tSent, 1, [], [], []⟩
    | .canErr text =>
      let is_overflow := isOverflowText (lowerStr text)
      if is_overflow ∧ attempt < attempts ∧ st.is_running then
        let r := send_loop st tSent attempts rest (attempt + 1) (min (delay * 2) (1/5))
        { r with attemptsMade := r.attemptsMade + 1,
                 backoffSleeps := delay :: r.backoffSleeps }
      else
        ⟨false, st.last_tx_time, 1, [], [],
          if is_overflow ∧ st.tx_overflow_cooldown > 0 then [st.tx_overflow_cooldown] else []⟩
    | .exc => ⟨false, st.last_tx_time, 1, [], [], []⟩

/-- `CANWorker._send_with_retry_on(bus, msg)`.  `tNow` is the
`time.time()` read used for the inter-send gap check, `tSent` the read
after a successful send; `outcomes` feeds one result per `bus.send`
attempt. -/
def send_with_retry_on (st : WState) (outcomes : List SendOutcome)
    (tNow tSent : ℚ) : SendRes :=
  let throttle : List ℚ :=
    if st.tx_min_gap > 0 ∧ st.last_tx_time > 0 then
      let elapsed := tNow - st.last_tx_time
      let remaining := st.tx_min_gap - elapsed
      if remaining > 0 then [remaining] else []
    else []
  let delay := max 0 st.send_retry_initial_delay
  let attempts := (max 1 st.max_send_retries).toNat
  let r := send_loop st tSent attempts outcomes 1 delay
  { r with throttleSleeps := throttle }

/-- The full mutable state of a `CANWorker` object relevant to the claims:
recovery configuration, the consecutive bus-off streak counter, and the
send/throttle state. -/
structure Worker where
  retry_on_busoff : Bool
  max_retries : Int
  retry_delay : ℚ
  busoff_streak : Int
  send : WState
deriving Repr, DecidableEq

/-- `CANWorker.__init__`: stores the recovery parameters as given
(`_max_retries`, `_retry_delay` are not transformed there), clamps
`max_send_retries` with `max(1, ...)` and the three TX durations with
`max(0.0, ...)`, initialises `_busoff_streak = 0`, `_last_tx_time = 0.0`
and `_is_running = True`. -/
def initWorker (retry_on_busoff : Bool) (max_retries : Int) (retry_delay : ℚ)
    (max_send_retries : Int)
    (send_retry_initial_delay tx_min_gap tx_overflow_cooldown : ℚ) : Worker :=
  { retry_on_busoff := retry_on_busoff
    max_retries := max_retries
    retry_delay := retry_delay
    busoff_streak := 0
    send := { is_running := true
              max_send_retries := max 1 max_send_retries
              send_retry_initial_delay := max 0 send_retry_initial_delay
              tx_min_gap := max 0 tx_min_gap
              tx_overflow_cooldown := max 0 tx_overflow_cooldown
              last_tx_time := 0 } }

/-- The backoff sleep sequence actually produced by the retry loop,
starting from current delay `e`: sleep `e`, then continue with
`min (e * 2) 0.2`. -/
def backoffFrom (e : ℚ) : Nat → List ℚ
  | 0 => []
  | n + 1 => e :: backoffFrom (min (e * 2) (1/5)) n

/-- The backoff sequence in the words of the specification: durations
`d, 2d, 4d, ...`, each capped at 0.2 seconds. -/
def claimedBackoff (d : ℚ) (N : Nat) : List ℚ :=
  (List.range N).map (fun k => min (2 ^ k * d) (1/5))

/-- Outcome of one `bus.recv(timeout=0.01)` call: a message, a timeout
(`None`), or a raised exception with its text; `isCanOrAttrErr` records
whether the exception satisfies
`isinstance(e, (can.CanError, AttributeError))`. -/
inductive RecvOutcome where
  | msg (m : Msg)
  | timeout
  | err (isCanOrAttrErr : Bool) (text : String)
deriving Repr, DecidableEq

/-- Bus-off classification in `run`'s exception handlers:
`("bus off" in str(e).lower()) or isinstance(e, (can.CanError, AttributeError))`. -/
def looksBusOff (isCanOrAttrErr : Bool) (text : String) : Bool :=
  strContains (lowerStr text) "bus off" || isCanOrAttrErr

/-- Oracle data for one `_send_with_retry_on` call made by the loop. -/
structure SendEnv where
  outcomes : List SendOutcome
  tNow : ℚ
  tSent : ℚ
deriving Repr, DecidableEq

/-- Oracle data for one poll of one bus inside the loop: the receive
outcome, the `time.time()` read used as the relayed frame's timestamp,
the send oracle, and the result of `_attempt_recovery` should it be
invoked. -/
structure PollEnv where
  recv : RecvOutcome
  tFresh : ℚ
  send : SendEnv
  recovery : Bool
deriving Repr, DecidableEq

/-- Oracle data for one iteration of the `while self._is_running` loop:
the input-bus poll and the output-bus poll. -/
structure IterEnv where
  inputSide : PollEnv
  outputSide : PollEnv
deriving Repr, DecidableEq

/-- Observable actions of `run`: Qt signal emissions, `time.sleep`
calls made while sending, and `shutdown()` calls on the buses. -/
inductive RunEv where
  | frame_received (m : Msg) (ch : Nat)
  | frame_retransmitted (m : Msg) (ch : Nat)
  | error_occurred (text : String)
  | recovery_started
  | recovery_succeeded
  | recovery_failed
  | slept (d : ℚ)
  | shutdown_input
  | shutdown_output
  | finished_emit
deriving Repr, DecidableEq

/-- The sleeps of one `_send_with_retry_on` call in chronological order:
the throttle-gap sleep precedes all attempts, backoff sleeps sit between
attempts, the cooldown sleep follows the last attempt. -/
def sleepEvs (r : SendRes) : List RunEv :=
  (r.throttleSleeps ++ r.backoffSleeps ++ r.cooldownSleeps).map RunEv.slept

/-- Result of handling one `try/except` block of the loop body: fall
through to the next statement, `continue` to the next iteration, or an
exception propagating out of the loop with the given text. -/
inductive PhaseOut where
  | ok (w : Worker) (evs : List RunEv)
  | continueIter (w : Worker) (evs : List RunEv)
  | raised (text : String) (w : Worker) (evs : List RunEv)
deriving Repr, DecidableEq

/-- The bus-off exception handler shared verbatim by both `except`
blocks of the loop body. -/
def busOffHandler (w : Worker) (env : PollEnv) (isCanOrAttrErr : Bool)
    (text : String) : PhaseOut :=
  if w.retry_on_busoff ∧ looksBusOff isCanOrAttrErr text then
    if w.busoff_streak ≥ max 0 w.max_retries then
      .raised "bus off" w [.recovery_failed]
    else
      let w' := { w with busoff_streak := w.busoff_streak + 1 }
      if env.recovery then
        .continueIter w' [.recovery_started, .recovery_succeeded]
      else
        .raised "bus off" w' [.recovery_started, .recovery_failed]
  else
    .raised text w []

/-- The `can.Message(arbitration_id=newId, data=..., dlc=...,
is_extended_id=..., timestamp=time.time())` construction used on every
relay path: all payload fields are copied from the received message, the
timestamp is the fresh clock read `ts`. -/
def mkRelayMsg (newId : Nat) (m : Msg) (ts : ℚ) : Msg :=
  { arbitration_id := newId, data := m.data, dlc := m.dlc,
    is_extended_id := m.is_extended_id, timestamp := ts }

/-- One relay step: send the freshly built message to the opposite bus
with `_send_with_retry_on`, emitting `frame_retransmitted` on success or
`error_occurred dropText` on failure.  Shared shape of the three relay
branches of the loop body. -/
def relaySend (w : Worker) (env : PollEnv) (newId : Nat) (m : Msg)
    (destCh : Nat) (dropText : String) : Worker × List RunEv :=
  let new_msg : Msg := mkRelayMsg newId m env.tFresh
  let r := send_with_retry_on w.send env.send.outcomes env.send.tNow env.send.tSent
  let w' := { w with send := { w.send with last_tx_time := r.last_tx_time } }
  if r.sent then
    (w', sleepEvs r ++ [.frame_retransmitted new_msg destCh])
  else
    (w', sleepEvs r ++ [.error_occurred dropText])

/-- The first `try/except` block of the loop body: poll the input bus
and relay to the output bus, applying the rewrite table. -/
def pollInputPhase (rules : List (Nat × Nat)) (w : Worker) (env : PollEnv) :
    PhaseOut :=
  match env.recv with
  | .timeout => .ok w []
  | .msg m =>
    let w₀ := { w with busoff_streak := 0 }
    match rulesGet rules m.arbitration_id with
    | some new_id =>
      let (w', evs) := relaySend w₀ env new_id m 0
        "TX buffer overflow: dropped a rewritten frame after retries"
      .ok w' (.frame_received m 1 :: evs)
    | none =>
      let (w', evs) := relaySend w₀ env m.arbitration_id m 0
        "TX buffer overflow: dropped a frame after retries"
      .ok w' (.frame_received m 1 :: evs)
  | .err k text => busOffHandler w env k text

/-- The second `try/except` block of the loop body: poll the output bus
and relay back to the input bus, always passthrough (no rewrite). -/
def pollOutputPhase (w : Worker) (env : PollEnv) : PhaseOut :=
  match env.recv with
  | .timeout => .ok w []
  | .msg m =>
    let w₀ := { w with busoff_streak := 0 }
    let (w', evs) := relaySend w₀ env m.arbitration_id m 1
      "TX buffer overflow: dropped a frame after retries"
    .ok w' (.frame_received m 0 :: evs)
  | .err k text => busOffHandler w env k text

/-- The `while self._is_running` loop.  One oracle entry is consumed per
iteration; an exhausted script models `stop()` having been observed.
Returns the final worker state, the emitted events, and the text of the
exception that left the loop, if any. -/
def runLoop (rules : List (Nat × Nat)) :
    Worker → List IterEnv → Worker × List RunEv × Option String
  | w, [] => (w, [], none)
  | w, e :: rest =>
    match pollInputPhase rules w e.inputSide with
    | .raised t w' evs => (w', evs, some t)
    | .continueIter w' evs =>
      let (w₂, evs₂, ex) := runLoop rules w' rest
      (w₂, evs ++ evs₂, ex)
    | .ok w' evs =>
      match pollOutputPhase w' e.outputSide with
      | .raised t w₂ evs₂ => (w₂, evs ++ evs₂, some t)
      | .continueIter w₂ evs₂ =>
        let (w₃, evs₃, ex) := runLoop rules w₂ rest
        (w₃, evs ++ evs₂ ++ evs₃, ex)
      | .ok w₂ evs₂ =>
        let (w₃, evs₃, ex) := runLoop rules w₂ rest
        (w₃, evs ++ evs₂ ++ evs₃, ex)

/-- Outcome of one `can.interface.Bus(**cfg)` construction (the
`TypeError` fallback retry with the unmodified config is folded into the
single outcome of opening that endpoint). -/
inductive OpenOutcome where
  | ok
  | fail (text : String)
deriving Repr, DecidableEq

/-- Open oracle for `_open_buses`: one outcome per endpoint. -/
structure OpenEnv where
  inputOpen : OpenOutcome
  outputOpen : OpenOutcome
deriving Repr, DecidableEq

/-- Result of `_open_buses`: the returned boolean, which bus attributes
now hold an open bus, and `_last_open_error`.  The input bus is opened
first; on any exception the error is recorded and `False` is returned,
leaving already-assigned bus attributes as they are. -/
structure OpenRes where
  success : Bool
  inputOpened : Bool
  outputOpened : Bool
  lastOpenError : Option String
deriving Repr, DecidableEq

/-- `CANWorker._open_buses`. -/
def open_buses (env : OpenEnv) : OpenRes :=
  match env.inputOpen with
  | .fail e => ⟨false, false, false, some e⟩
  | .ok =>
    match env.outputOpen with
    | .fail e => ⟨false, true, false, some e⟩
    | .ok => ⟨true, true, true, none⟩

/-- The `finally` block of `run`: call `shutdown()` on each bus attribute
that holds a bus, then emit `finished`.  The shutdown calls are NOT
wrapped in `contextlib.suppress`, so a raising shutdown (modelled by the
two flags) aborts the block, skipping the remaining shutdown and the
`finished` emission. -/
def finalizeRun (inOpen outOpen inShutRaises outShutRaises : Bool) : List RunEv :=
  if inOpen then
    RunEv.shutdown_input ::
      (if inShutRaises then []
       else if outOpen then
         RunEv.shutdown_output :: (if outShutRaises then [] else [.finished_emit])
       else [.finished_emit])
  else if outOpen then
    RunEv.shutdown_output :: (if outShutRaises then [] else [.finished_emit])
  else [.finished_emit]

/-- `CANWorker.run`: open both buses (raising `_last_open_error` on
failure), run the relay loop, report any escaped exception `e` via
`error_occurred(f"Error in CAN worker: {e}")`, and execute the `finally`
block.  Returns the emitted event trace. -/
def runModel (rules : List (Nat × Nat)) (w : Worker) (openEnv : OpenEnv)
    (script : List IterEnv) (inShutRaises outShutRaises : Bool) : List RunEv :=
  let o := open_buses openEnv
  if o.success then
    let (_, evs, ex) := runLoop rules w script
    evs ++
      (match ex with
       | some t => [.error_occurred ("Error in CAN worker: " ++ t)]
       | none => []) ++
      finalizeRun o.inputOpened o.outputOpened inShutRaises outShutRaises
  else
    [.error_occurred ("Error in CAN worker: " ++
       (o.lastOpenError.getD "Failed to open CAN buses"))] ++
      finalizeRun o.inputOpened o.outputOpened inShutRaises outShutRaises

/-- The worker state produced by a `PhaseOut`. -/
def phaseWorker : PhaseOut → Worker
  | .ok w _ => w
  | .continueIter w _ => w
  | .raised _ w _ => w

/-- The events emitted by a `PhaseOut`. -/
def phaseEvs : PhaseOut → List RunEv
  | .ok _ evs => evs
  | .continueIter _ evs => evs
  | .raised _ _ evs => evs

/-- Event block of `k` successful recovery episodes. -/
def episodes (k : Nat) : List RunEv :=
  (List.replicate k [RunEv.recovery_started, RunEv.recovery_succeeded]).flatten

/-- A worker as constructed with the source defaults
(`retry_on_busoff=True, max_retries=3, retry_delay=0.5,
max_send_retries=10, send_retry_initial_delay=0.01, tx_min_gap=0.0,
tx_overflow_cooldown=0.05`). -/
def sampleWorker : Worker := initWorker true 3 (1/2) 10 (1/100) 0 (1/20)

/-- A sample frame with arbitration id `0x100`. -/
def msg100 : Msg := ⟨0x100, [1, 2, 3], 3, false, 0⟩

/-- A rewrite table mapping `0x100` to `0x200`. -/
def rules100to200 : List (Nat × Nat) := [(0x100, 0x200)]

/-- A poll that times out (no frame, no error). -/
def quietPoll : PollEnv :=
  { recv := .timeout, tFresh := 0, send := ⟨[], 0, 0⟩, recovery := true }

/-- An iteration in which the input bus is quiet and the output bus
yields `msg100`, whose first send attempt succeeds. -/
def outRelayIter : IterEnv :=
  { inputSide := quietPoll,
    outputSide := { recv := .msg msg100, tFresh := 7, send := ⟨[.ok], 0, 9⟩,
                    recovery := true } }

/-- An iteration in which the input-bus receive raises a bus-off
classified `can.CanError` and recovery succeeds. -/
def busoffIter : IterEnv :=
  { inputSide := { recv := .err true "bus off error", tFresh := 0,
                   send := ⟨[], 0, 0⟩, recovery := true },
    outputSide := quietPoll }

/-- A worker configured with `tx_min_gap = 0.1`. -/
def gapWorker : Worker := initWorker true 3 (1/2) 10 (1/100) (1/10) (1/20)

/-- First poll: `msg100` arrives and is sent successfully, stamping the
shared clock with `tSent = 6`. -/
def gapEnv1 : PollEnv :=
  { recv := .msg msg100, tFresh := 7, send := ⟨[.ok], 5, 6⟩, recovery := true }

/-- Second poll (opposite direction): another frame arrives and its send
starts at `tNow = 6.05`, only 0.05 s after the previous send. -/
def gapEnv2 : PollEnv :=
  { recv := .msg msg100, tFresh := 8, send := ⟨[.ok], 121/20, 7⟩,
    recovery := true }

/-- Send state with `send_retry_initial_delay = 0.3` (a legal
configuration value larger than the 0.2 s backoff cap). -/
def st3 : WState :=
  { is_running := true, max_send_retries := 10, send_retry_initial_delay := 3/10,
    tx_min_gap := 0, tx_overflow_cooldown := 0, last_tx_time := 0 }

/-! ## Helper lemmas -/

/-- The retry loop records `tSent` as the new `_last_tx_time` exactly
when the send succeeded, and keeps the old value otherwise. -/
theorem send_loop_last_eq (st : WState) (tSent : ℚ) (attempts : Nat) :
    ∀ (outcomes : List SendOutcome) (attempt : Nat) (delay : ℚ),
      (send_loop st tSent attempts outcomes attempt delay).last_tx_time =
        if (send_loop st tSent attempts outcomes attempt delay).sent then tSent
        else st.last_tx_time := by
  intro outcomes
  induction outcomes with
  | nil => intro attempt delay; simp [send_loop]
  | cons o rest ih =>
    intro attempt delay
    cases o with
    | ok => simp [send_loop]
    | canErr text =>
      simp only [send_loop]
      split
      · exact ih _ _
      · simp
    | exc => simp [send_loop]

/-! ## C9 -/

/-- C9 is false as stated: `__init__` stores `max_retries` and
`retry_delay` unclamped, so negative inputs remain negative on the
constructed worker. -/
theorem construction_clamp_counterexample :
    (initWorker true (-5) (-(1/2)) 10 (1/100) 0 (1/20)).max_retries < 0 ∧
    (initWorker true (-5) (-(1/2)) 10 (1/100) 0 (1/20)).retry_delay < 0 := by
  exact ⟨by decide, by with_unfolding_all decide⟩

/-- C9 amended: at construction only the TX fields are clamped
(`max_send_retries` to ≥ 1, the three TX durations to ≥ 0);
`max_bus_off_retries` (`max_retries`) and `bus_off_retry_delay`
(`retry_delay`) are stored exactly as given, clamping for them happens
at each use site instead. -/
theorem construction_clamp_amended (b : Bool) (mr : Int) (rd : ℚ) (msr : Int)
    (sd g cd : ℚ) :
    1 ≤ (initWorker b mr rd msr sd g cd).send.max_send_retries ∧
    0 ≤ (initWorker b mr rd msr sd g cd).send.send_retry_initial_delay ∧
    0 ≤ (initWorker b mr rd msr sd g cd).send.tx_min_gap ∧
    0 ≤ (initWorker b mr rd msr sd g cd).send.tx_overflow_cooldown ∧
    (initWorker b mr rd msr sd g cd).max_retries = mr ∧
    (initWorker b mr rd msr sd g cd).retry_delay = rd :=
  ⟨le_max_left 1 msr, le_max_left 0 sd, le_max_left 0 g, le_max_left 0 cd, rfl, rfl⟩

/-! ## C10 -/

/-- C10: `_last_tx_time` is updated only by a successful send — whenever
`_send_with_retry_on` returns `False` (overflow exhaustion, non-overflow
error, or an unclassifiable exception), the shared throttle clock is
unchanged, so a dropped frame consumes no inter-send pacing budget. -/
theorem dropped_send_keeps_throttle_clock (st : WState) (outcomes : List SendOutcome)
    (tNow tSent : ℚ)
    (h : (send_with_retry_on st outcomes tNow tSent).sent = false) :
    (send_with_retry_on st outcomes tNow tSent).last_tx_time = st.last_tx_time := by
  have hl : (send_with_retry_on st outcomes tNow tSent).last_tx_time =
      (send_loop st tSent (max 1 st.max_send_retries).toNat outcomes 1
        (max 0 st.send_retry_initial_delay)).last_tx_time := rfl
  have hs : (send_loop st tSent (max 1 st.max_send_retries).toNat outcomes 1
      (max 0 st.send_retry_initial_delay)).sent = false := h
  rw [hl, send_loop_last_eq, hs]
  simp

/-- Witness for C10 at a concrete dropped send. -/
theorem dropped_send_keeps_throttle_clock_witness :
    (send_with_retry_on sampleWorker.send [.exc] 0 9).sent = false ∧
    (send_with_retry_on sampleWorker.send [.exc] 0 9).last_tx_time =
      sampleWorker.send.last_tx_time :=
  ⟨by with_unfolding_all decide,
   dropped_send_keeps_throttle_clock _ _ _ _ (by with_unfolding_all decide)⟩

/-! ## C4 -/

/-- C4: if the input (Primary) endpoint opens but the output (Secondary)
endpoint fails to open, the run raises the recorded open error, surfaces
it through `error_occurred`, shuts the opened input bus down in the
`finally` block (no leak) and emits `finished` — for any open-error
text, rewrite table, worker state and script. -/
theorem open_failure_is_atomic (e : String) (rules : List (Nat × Nat)) (w : Worker)
    (script : List IterEnv) :
    runModel rules w ⟨.ok, .fail e⟩ script false false =
      [.error_occurred ("Error in CAN worker: " ++ e), .shutdown_input,
       .finished_emit] := rfl

/-! ## C5 -/

/-- With benign shutdowns, the `finally` block is the shutdown calls for
the opened buses followed by the `finished` emission. -/
theorem finalizeRun_no_raise (io oo : Bool) :
    finalizeRun io oo false false =
      (if io then [RunEv.shutdown_input] else []) ++
        (if oo then [RunEv.shutdown_output] else []) ++ [.finished_emit] := by
  cases io <;> cases oo <;> rfl

/-- The benign-shutdown `finally` block is nonempty and ends in
`finished`. -/
theorem finalizeRun_getLast (io oo : Bool) :
    (finalizeRun io oo false false).getLast? = some .finished_emit ∧
      finalizeRun io oo false false ≠ [] := by
  cases io <;> cases oo <;> exact ⟨rfl, by decide⟩

/-- Every trace of `run` ends with the `finally` block. -/
theorem runModel_ends_with_finalize (rules : List (Nat × Nat)) (w : Worker)
    (openEnv : OpenEnv) (script : List IterEnv) (ir orr : Bool) :
    ∃ pre, runModel rules w openEnv script ir orr =
      pre ++ finalizeRun (open_buses openEnv).inputOpened
        (open_buses openEnv).outputOpened ir orr := by
  obtain ⟨i, o⟩ := openEnv
  cases i with
  | fail e => exact ⟨_, rfl⟩
  | ok =>
    cases o with
    | fail e => exact ⟨_, rfl⟩
    | ok =>
      rcases hrl : runLoop rules w script with ⟨w', evs, ex⟩
      refine ⟨evs ++ (match ex with
        | some t => [RunEv.error_occurred ("Error in CAN worker: " ++ t)]
        | none => []), ?_⟩
      cases ex <;> simp [runModel, open_buses, hrl]

/-- C5 is false as stated: shutdown errors are not suppressed in `run`'s
`finally` block (unlike in `_attempt_recovery`).  If the input bus's
`shutdown()` raises on a normal stop, the output bus is never shut down
and no `finished` event is emitted. -/
theorem run_shutdown_not_suppressed_counterexample :
    runModel [] sampleWorker ⟨.ok, .ok⟩ [] true false = [.shutdown_input] ∧
    RunEv.finished_emit ∉ runModel [] sampleWorker ⟨.ok, .ok⟩ [] true false ∧
    RunEv.shutdown_output ∉ runModel [] sampleWorker ⟨.ok, .ok⟩ [] true false := by
  with_unfolding_all decide

/-- C5 amended: on every exit path (normal stop, open failure,
unrecoverable loop error) `run` invokes `shutdown()` on each endpoint
that was opened and emits `finished` after the shutdowns — provided the
shutdown calls themselves do not raise; shutdown errors are not
suppressed on this path. -/
theorem run_shutdown_amended (rules : List (Nat × Nat)) (w : Worker)
    (openEnv : OpenEnv) (script : List IterEnv) :
    (runModel rules w openEnv script false false).getLast? = some .finished_emit ∧
    ((open_buses openEnv).inputOpened = true →
      RunEv.shutdown_input ∈ runModel rules w openEnv script false false) ∧
    ((open_buses openEnv).outputOpened = true →
      RunEv.shutdown_output ∈ runModel rules w openEnv script false false) := by
  obtain ⟨pre, hpre⟩ := runModel_ends_with_finalize rules w openEnv script false false
  rw [hpre]
  obtain ⟨hlast, hne⟩ := finalizeRun_getLast (open_buses openEnv).inputOpened
    (open_buses openEnv).outputOpened
  refine ⟨?_, fun hi => ?_, fun ho => ?_⟩
  · rw [List.getLast?_append_of_ne_nil pre hne, hlast]
  · refine List.mem_append_right pre ?_
    rw [finalizeRun_no_raise, hi]
    simp
  · refine List.mem_append_right pre ?_
    rw [finalizeRun_no_raise, ho]
    simp

/-- Witness for C5's amended theorem on a concrete normal stop. -/
theorem run_shutdown_amended_witness :
    (runModel [] sampleWorker ⟨.ok, .ok⟩ [] false false).getLast? =
      some .finished_emit ∧
    RunEv.shutdown_input ∈ runModel [] sampleWorker ⟨.ok, .ok⟩ [] false false ∧
    RunEv.shutdown_output ∈ runModel [] sampleWorker ⟨.ok, .ok⟩ [] false false :=
  ⟨(run_shutdown_amended [] sampleWorker ⟨.ok, .ok⟩ []).1,
   (run_shutdown_amended [] sampleWorker ⟨.ok, .ok⟩ []).2.1 (by decide),
   (run_shutdown_amended [] sampleWorker ⟨.ok, .ok⟩ []).2.2 (by decide)⟩

/-! ## C1 and C8 -/

/-- Input-bus poll with a rewrite-table hit and a successful send. -/
theorem pollInputPhase_rewrite_sent (rules : List (Nat × Nat)) (w : Worker)
    (env : PollEnv) (m : Msg) (R : Nat)
    (hrecv : env.recv = .msg m)
    (hrule : rulesGet rules m.arbitration_id = some R)
    (hsent : (send_with_retry_on w.send env.send.outcomes env.send.tNow
      env.send.tSent).sent = true) :
    pollInputPhase rules w env =
      .ok { w with busoff_streak := 0, send := { w.send with last_tx_time :=
              (send_with_retry_on w.send env.send.outcomes env.send.tNow
                env.send.tSent).last_tx_time } }
        (.frame_received m 1 ::
          (sleepEvs (send_with_retry_on w.send env.send.outcomes env.send.tNow
            env.send.tSent) ++
           [.frame_retransmitted (mkRelayMsg R m env.tFresh) 0])) := by
  simp [pollInputPhase, hrecv, hrule, relaySend, hsent]

/-- Input-bus poll with no rewrite rule and a successful send. -/
theorem pollInputPhase_passthrough_sent (rules : List (Nat × Nat)) (w : Worker)
    (env : PollEnv) (m : Msg)
    (hrecv : env.recv = .msg m)
    (hrule : rulesGet rules m.arbitration_id = none)
    (hsent : (send_with_retry_on w.send env.send.outcomes env.send.tNow
      env.send.tSent).sent = true) :
    pollInputPhase rules w env =
      .ok { w with busoff_streak := 0, send := { w.send with last_tx_time :=
              (send_with_retry_on w.send env.send.outcomes env.send.tNow
                env.send.tSent).last_tx_time } }
        (.frame_received m 1 ::
          (sleepEvs (send_with_retry_on w.send env.send.outcomes env.send.tNow
            env.send.tSent) ++
           [.frame_retransmitted (mkRelayMsg m.arbitration_id m env.tFresh) 0])) := by
  simp [pollInputPhase, hrecv, hrule, relaySend, hsent]

/-- Output-bus poll of a message with a successful send (this path never
consults the rewrite table). -/
theorem pollOutputPhase_msg_sent (w : Worker) (env : PollEnv) (m : Msg)
    (hrecv : env.recv = .msg m)
    (hsent : (send_with_retry_on w.send env.send.outcomes env.send.tNow
      env.send.tSent).sent = true) :
    pollOutputPhase w env =
      .ok { w with busoff_streak := 0, send := { w.send with last_tx_time :=
              (send_with_retry_on w.send env.send.outcomes env.send.tNow
                env.send.tSent).last_tx_time } }
        (.frame_received m 0 ::
          (sleepEvs (send_with_retry_on w.send env.send.outcomes env.send.tNow
            env.send.tSent) ++
           [.frame_retransmitted (mkRelayMsg m.arbitration_id m env.tFresh) 1])) := by
  simp [pollOutputPhase, hrecv, relaySend, hsent]

set_option maxRecDepth 8000 in
/-- C1 is false as stated: the rewrite table is not applied
direction-agnostically.  A frame with arbitration id `0x100`, which the
table maps to `0x200`, received on the Secondary (output) bus is relayed
to the Primary (input) bus with its original id `0x100`: the
Secondary-to-Primary path is unconditional passthrough. -/
theorem rewrite_not_direction_agnostic_counterexample :
    rulesGet rules100to200 msg100.arbitration_id = some 0x200 ∧
    runModel rules100to200 sampleWorker ⟨.ok, .ok⟩ [outRelayIter] false false =
      [.frame_received msg100 0,
       .frame_retransmitted { msg100 with timestamp := 7 } 1,
       .shutdown_input, .shutdown_output, .finished_emit] ∧
    ({ msg100 with timestamp := 7 } : Msg).arbitration_id ≠ 0x200 := by
  with_unfolding_all decide

/-- C1 amended: the rewrite table is applied on the Primary-to-Secondary
path only.  There, a frame whose id maps to `R` is relayed with
arbitration id `R`, the same data and dlc, and a freshly captured
timestamp (≥ the original's when the clock has not gone backwards).  On
the Secondary-to-Primary path every frame — also one whose id is in the
table — is relayed with its original arbitration id. -/
theorem rewrite_primary_to_secondary_amended
    (rules : List (Nat × Nat)) (w : Worker) (env env₂ : PollEnv) (m m₂ : Msg)
    (R : Nat)
    (hrule : rulesGet rules m.arbitration_id = some R)
    (hrecv : env.recv = .msg m)
    (hsent : (send_with_retry_on w.send env.send.outcomes env.send.tNow
      env.send.tSent).sent = true)
    (hts : m.timestamp ≤ env.tFresh)
    (hrecv₂ : env₂.recv = .msg m₂)
    (hsent₂ : (send_with_retry_on w.send env₂.send.outcomes env₂.send.tNow
      env₂.send.tSent).sent = true)
    (hts₂ : m₂.timestamp ≤ env₂.tFresh) :
    (∃ w' evs new, pollInputPhase rules w env = .ok w' evs ∧
       RunEv.frame_retransmitted new 0 ∈ evs ∧
       new.arbitration_id = R ∧ new.data = m.data ∧ new.dlc = m.dlc ∧
       new.is_extended_id = m.is_extended_id ∧ m.timestamp ≤ new.timestamp) ∧
    (∃ w₂ evs₂ new₂, pollOutputPhase w env₂ = .ok w₂ evs₂ ∧
       RunEv.frame_retransmitted new₂ 1 ∈ evs₂ ∧
       new₂.arbitration_id = m₂.arbitration_id ∧ new₂.data = m₂.data ∧
       new₂.dlc = m₂.dlc ∧ new₂.is_extended_id = m₂.is_extended_id ∧
       m₂.timestamp ≤ new₂.timestamp) := by
  constructor
  · rw [pollInputPhase_rewrite_sent rules w env m R hrecv hrule hsent]
    refine ⟨_, _, mkRelayMsg R m env.tFresh, rfl, ?_, rfl, rfl, rfl, rfl, hts⟩
    simp
  · rw [pollOutputPhase_msg_sent w env₂ m₂ hrecv₂ hsent₂]
    refine ⟨_, _, mkRelayMsg m₂.arbitration_id m₂ env₂.tFresh, rfl, ?_, rfl, rfl,
      rfl, rfl, hts₂⟩
    simp

/-- Witness for C1's amended theorem: `0x100 → 0x200` rewrite applied on
the Primary-to-Secondary relay, passthrough on the way back. -/
theorem rewrite_primary_to_secondary_amended_witness :
    (∃ w' evs new,
       pollInputPhase rules100to200 sampleWorker outRelayIter.outputSide =
         .ok w' evs ∧
       RunEv.frame_retransmitted new 0 ∈ evs ∧
       new.arbitration_id = 0x200 ∧ new.data = msg100.data ∧
       new.dlc = msg100.dlc ∧ new.is_extended_id = msg100.is_extended_id ∧
       msg100.timestamp ≤ new.timestamp) ∧
    (∃ w₂ evs₂ new₂,
       pollOutputPhase sampleWorker outRelayIter.outputSide = .ok w₂ evs₂ ∧
       RunEv.frame_retransmitted new₂ 1 ∈ evs₂ ∧
       new₂.arbitration_id = msg100.arbitration_id ∧ new₂.data = msg100.data ∧
       new₂.dlc = msg100.dlc ∧ new₂.is_extended_id = msg100.is_extended_id ∧
       msg100.timestamp ≤ new₂.timestamp) :=
  rewrite_primary_to_secondary_amended rules100to200 sampleWorker
    outRelayIter.outputSide outRelayIter.outputSide msg100 msg100 0x200
    (by decide) rfl (by with_unfolding_all decide)
    (by with_unfolding_all decide) rfl (by with_unfolding_all decide)
    (by with_unfolding_all decide)

/-- C8: a frame whose arbitration id is absent from the rewrite table is
relayed — in both directions — as a new frame identical in
arbitration id, data, dlc and extended-id flag, carrying the freshly
captured timestamp of the relay moment, which differs from the
original's whenever the clock read does. -/
theorem passthrough_identity
    (rules : List (Nat × Nat)) (w : Worker) (env env₂ : PollEnv) (m m₂ : Msg)
    (hrule : rulesGet rules m.arbitration_id = none)
    (hrecv : env.recv = .msg m)
    (hsent : (send_with_retry_on w.send env.send.outcomes env.send.tNow
      env.send.tSent).sent = true)
    (hrecv₂ : env₂.recv = .msg m₂)
    (hsent₂ : (send_with_retry_on w.send env₂.send.outcomes env₂.send.tNow
      env₂.send.tSent).sent = true) :
    (∃ w' evs, pollInputPhase rules w env = .ok w' evs ∧
       RunEv.frame_retransmitted { m with timestamp := env.tFresh } 0 ∈ evs) ∧
    (∃ w₂ evs₂, pollOutputPhase w env₂ = .ok w₂ evs₂ ∧
       RunEv.frame_retransmitted { m₂ with timestamp := env₂.tFresh } 1 ∈ evs₂) ∧
    (env.tFresh ≠ m.timestamp →
      ({ m with timestamp := env.tFresh } : Msg).timestamp ≠ m.timestamp) := by
  refine ⟨?_, ?_, fun hne => hne⟩
  · rw [pollInputPhase_passthrough_sent rules w env m hrecv hrule hsent]
    refine ⟨_, _, rfl, ?_⟩
    simp [mkRelayMsg]
  · rw [pollOutputPhase_msg_sent w env₂ m₂ hrecv₂ hsent₂]
    refine ⟨_, _, rfl, ?_⟩
    simp [mkRelayMsg]

/-- Witness for C8 on a concrete frame with no rewrite rule. -/
theorem passthrough_identity_witness :
    (∃ w' evs, pollInputPhase [] sampleWorker outRelayIter.outputSide =
       .ok w' evs ∧
       RunEv.frame_retransmitted { msg100 with timestamp := 7 } 0 ∈ evs) ∧
    (∃ w₂ evs₂, pollOutputPhase sampleWorker outRelayIter.outputSide =
       .ok w₂ evs₂ ∧
       RunEv.frame_retransmitted { msg100 with timestamp := 7 } 1 ∈ evs₂) ∧
    ((7:ℚ) ≠ msg100.timestamp →
      ({ msg100 with timestamp := 7 } : Msg).timestamp ≠ msg100.timestamp) :=
  passthrough_identity [] sampleWorker outRelayIter.outputSide
    outRelayIter.outputSide msg100 msg100 (by decide) rfl
    (by with_unfolding_all decide) rfl (by with_unfolding_all decide)

/-! ## C3 -/

/-- The retry loop on `N` overflow failures followed by a success: the
send is reported, `N + 1` attempts are made, and the backoff sleeps are
`backoffFrom delay N`. -/
theorem send_loop_overflow_then_ok (st : WState) (tSent : ℚ) (attempts : Nat)
    (t : String) (hov : isOverflowText (lowerStr t) = true)
    (hrun : st.is_running = true) :
    ∀ (N : Nat) (rest : List SendOutcome) (attempt : Nat) (delay : ℚ),
      attempt + N ≤ attempts →
      send_loop st tSent attempts
        (List.replicate N (.canErr t) ++ .ok :: rest) attempt delay =
        ⟨true, tSent, N + 1, [], backoffFrom delay N, []⟩ := by
  intro N
  induction N with
  | zero =>
    intro rest attempt delay h
    simp [send_loop, backoffFrom]
  | succ n ih =>
    intro rest attempt delay h
    have hlt : attempt < attempts := by omega
    simp only [List.replicate_succ, List.cons_append, send_loop]
    rw [if_pos ⟨hov, hlt, hrun⟩]
    simp only [List.append_eq]
    rw [ih rest (attempt + 1) (min (delay * 2) (1/5)) (by omega)]
    simp [backoffFrom]

/-- From the second sleep on, the capped-doubling recurrence yields the
closed form `min (2^(k+1) * e) 0.2`. -/
theorem backoffFrom_shift :
    ∀ (n : Nat) (e : ℚ), backoffFrom (min (e * 2) (1/5)) n =
      (List.range n).map (fun k => min (2 ^ (k + 1) * e) (1/5)) := by
  intro n
  induction n with
  | zero => intro e; rfl
  | succ n ih =>
    intro e
    have hstep : ∀ k : Nat,
        min ((2:ℚ) ^ (k + 1) * min (e * 2) (1/5)) (1/5) =
          min (2 ^ (k + 1 + 1) * e) (1/5) := by
      intro k
      have hc : (0:ℚ) ≤ 2 ^ (k + 1) := by positivity
      rw [mul_min_of_nonneg _ _ hc, min_assoc,
        min_eq_right (le_mul_of_one_le_left (by norm_num) (one_le_pow₀ (by norm_num)))]
      congr 1
      ring
    rw [backoffFrom, ih (min (e * 2) (1/5))]
    simp only [List.range_succ_eq_map, List.map_cons, List.map_map]
    congr 1
    · rw [pow_one, mul_comm]
    · refine List.map_congr_left fun k _ => ?_
      simp only [Function.comp]
      exact hstep k

/-- Closed form of the code's backoff sequence: the first sleep is
exactly the initial delay `d`, uncapped; every later sleep `k` is
`min (2^k * d) 0.2`. -/
theorem backoffFrom_eq_capped (d : ℚ) (N : Nat) :
    backoffFrom d N =
      (List.range N).map
        (fun k => if k = 0 then d else min (2 ^ k * d) (1/5)) := by
  cases N with
  | zero => rfl
  | succ n =>
    rw [backoffFrom, backoffFrom_shift n d]
    simp only [List.range_succ_eq_map, List.map_cons, List.map_map]
    simp [Function.comp]

set_option maxRecDepth 8000 in
/-- C3 is false as stated: the first backoff sleep is not capped at
0.2 s.  With `send_retry_initial_delay = 0.3` and one overflow failure
before success, the code sleeps `0.3` once, while the claimed sequence
`[d, 2d, ...]` "each capped at 0.2 s" prescribes `0.2`. -/
theorem backoff_cap_counterexample :
    (send_with_retry_on st3 [.canErr "overflow", .ok] 0 0).sent = true ∧
    st3.send_retry_initial_delay = 3/10 ∧
    (send_with_retry_on st3 [.canErr "overflow", .ok] 0 0).backoffSleeps =
      [3/10] ∧
    claimedBackoff (3/10) 1 = [1/5] ∧ ((3:ℚ)/10 ≠ 1/5) := by
  with_unfolding_all decide

/-- C3 amended: with `N` overflow-classified failures followed by a
success, `N + 1 ≤ max_send_retries`, `send_with_retry_on` returns true
after exactly `N + 1` attempts and performs exactly `N` backoff sleeps:
the first of exactly `d = max(0, send_retry_initial_delay)` (uncapped),
the `k`-th (k ≥ 1) of `min (2^k * d) 0.2`; whenever `d ≤ 0.2` this
coincides with the claimed sequence `[d, 2d, 4d, ...]` capped at 0.2 s. -/
theorem backoff_sequence_amended (st : WState) (t : String)
    (rest : List SendOutcome) (N : Nat) (tNow tSent : ℚ)
    (hrun : st.is_running = true)
    (hov : isOverflowText (lowerStr t) = true)
    (hN : N + 1 ≤ (max 1 st.max_send_retries).toNat) :
    (send_with_retry_on st (List.replicate N (.canErr t) ++ .ok :: rest)
      tNow tSent).sent = true ∧
    (send_with_retry_on st (List.replicate N (.canErr t) ++ .ok :: rest)
      tNow tSent).attemptsMade = N + 1 ∧
    (send_with_retry_on st (List.replicate N (.canErr t) ++ .ok :: rest)
      tNow tSent).backoffSleeps =
      (List.range N).map
        (fun k => if k = 0 then max 0 st.send_retry_initial_delay
          else min (2 ^ k * max 0 st.send_retry_initial_delay) (1/5)) ∧
    (max 0 st.send_retry_initial_delay ≤ 1/5 →
      (send_with_retry_on st (List.replicate N (.canErr t) ++ .ok :: rest)
        tNow tSent).backoffSleeps =
        claimedBackoff (max 0 st.send_retry_initial_delay) N) := by
  have key := send_loop_overflow_then_ok st tSent
    (max 1 st.max_send_retries).toNat t hov hrun N rest 1
    (max 0 st.send_retry_initial_delay) (by omega)
  have h1 : (send_with_retry_on st (List.replicate N (.canErr t) ++ .ok :: rest)
      tNow tSent).sent =
      (send_loop st tSent (max 1 st.max_send_retries).toNat
        (List.replicate N (.canErr t) ++ .ok :: rest) 1
        (max 0 st.send_retry_initial_delay)).sent := rfl
  have h2 : (send_with_retry_on st (List.replicate N (.canErr t) ++ .ok :: rest)
      tNow tSent).attemptsMade =
      (send_loop st tSent (max 1 st.max_send_retries).toNat
        (List.replicate N (.canErr t) ++ .ok :: rest) 1
        (max 0 st.send_retry_initial_delay)).attemptsMade := rfl
  have h3 : (send_with_retry_on st (List.replicate N (.canErr t) ++ .ok :: rest)
      tNow tSent).backoffSleeps =
      (send_loop st tSent (max 1 st.max_send_retries).toNat
        (List.replicate N (.canErr t) ++ .ok :: rest) 1
        (max 0 st.send_retry_initial_delay)).backoffSleeps := rfl
  rw [h1, h2, h3, key]
  refine ⟨rfl, rfl, backoffFrom_eq_capped _ _, fun hle => ?_⟩
  rw [backoffFrom_eq_capped, claimedBackoff]
  refine List.map_congr_left fun k _ => ?_
  by_cases hk : k = 0
  · subst hk
    rw [if_pos rfl, pow_zero, one_mul]
    exact (min_eq_left hle).symm
  · rw [if_neg hk]

/-- Witness for C3's amended theorem: two overflow failures with
`d = 0.01`, then success — sleeps `[0.01, 0.02]`, both below the cap. -/
theorem backoff_sequence_amended_witness :
    (send_with_retry_on sampleWorker.send
      (List.replicate 2 (.canErr "tx buffer overflow") ++ .ok :: []) 0 9).sent
      = true ∧
    (send_with_retry_on sampleWorker.send
      (List.replicate 2 (.canErr "tx buffer overflow") ++ .ok :: []) 0 9).attemptsMade
      = 2 + 1 ∧
    (send_with_retry_on sampleWorker.send
      (List.replicate 2 (.canErr "tx buffer overflow") ++ .ok :: []) 0 9).backoffSleeps =
      (List.range 2).map
        (fun k => if k = 0 then max 0 sampleWorker.send.send_retry_initial_delay
          else min (2 ^ k * max 0 sampleWorker.send.send_retry_initial_delay) (1/5)) ∧
    (max 0 sampleWorker.send.send_retry_initial_delay ≤ 1/5 →
      (send_with_retry_on sampleWorker.send
        (List.replicate 2 (.canErr "tx buffer overflow") ++ .ok :: []) 0 9).backoffSleeps =
        claimedBackoff (max 0 sampleWorker.send.send_retry_initial_delay) 2) :=
  backoff_sequence_amended sampleWorker.send "tx buffer overflow" [] 2 0 9
    rfl (by decide) (by with_unfolding_all decide)

/-! ## C6 -/

/-- One step of the retry loop on an overflow failure with retry budget
and the running flag available. -/
theorem send_loop_cons_overflow (st : WState) (tSent : ℚ) (attempts : Nat)
    (t : String) (rest' : List SendOutcome) (attempt : Nat) (delay : ℚ)
    (hov : isOverflowText (lowerStr t) = true)
    (hrun : st.is_running = true) (hlt : attempt < attempts) :
    send_loop st tSent attempts (.canErr t :: rest') attempt delay =
      { send_loop st tSent attempts rest' (attempt + 1) (min (delay * 2) (1/5))
          with
        attemptsMade :=
          (send_loop st tSent attempts rest' (attempt + 1)
            (min (delay * 2) (1/5))).attemptsMade + 1,
        backoffSleeps :=
          delay :: (send_loop st tSent attempts rest' (attempt + 1)
            (min (delay * 2) (1/5))).backoffSleeps } := by
  simp only [send_loop]
  rw [if_pos ⟨hov, hlt, hrun⟩]

/-- The retry loop when every attempt fails with an overflow-classified
error until the attempt budget runs out: returns false after the last
attempt, sleeping the cooldown (when positive) after it. -/
theorem send_loop_overflow_exhaust (st : WState) (tSent : ℚ) (attempts : Nat)
    (t : String) (hov : isOverflowText (lowerStr t) = true)
    (hrun : st.is_running = true) :
    ∀ (j : Nat) (attempt : Nat) (delay : ℚ), attempt + j = attempts →
      send_loop st tSent attempts (List.replicate (j + 1) (.canErr t))
        attempt delay =
        ⟨false, st.last_tx_time, j + 1, [], backoffFrom delay j,
          if 0 < st.tx_overflow_cooldown then [st.tx_overflow_cooldown]
          else []⟩ := by
  intro j
  induction j with
  | zero =>
    intro attempt delay h
    have hnlt : ¬ (attempt < attempts) := by omega
    simp only [List.replicate_succ, List.replicate_zero, send_loop]
    rw [if_neg (fun hc => hnlt hc.2.1)]
    simp [hov, backoffFrom]
  | succ n ih =>
    intro attempt delay h
    have hlt : attempt < attempts := by omega
    rw [List.replicate_succ,
      send_loop_cons_overflow st tSent attempts t _ attempt delay hov hrun hlt,
      ih (attempt + 1) (min (delay * 2) (1/5)) (by omega)]
    simp [backoffFrom]

/-- The retry loop when, after `j` overflow failures, an attempt fails
with a `can.CanError` that is not overflow-classified: immediate false,
no cooldown sleep, no further attempts. -/
theorem send_loop_nonoverflow_abort (st : WState) (tSent : ℚ) (attempts : Nat)
    (t tb : String) (hov : isOverflowText (lowerStr t) = true)
    (hnov : isOverflowText (lowerStr tb) = false)
    (hrun : st.is_running = true) :
    ∀ (j : Nat) (rest : List SendOutcome) (attempt : Nat) (delay : ℚ),
      attempt + j ≤ attempts →
      send_loop st tSent attempts
        (List.replicate j (.canErr t) ++ .canErr tb :: rest) attempt delay =
        ⟨false, st.last_tx_time, j + 1, [], backoffFrom delay j, []⟩ := by
  intro j
  induction j with
  | zero =>
    intro rest attempt delay h
    simp only [List.replicate_zero, List.nil_append, send_loop]
    rw [if_neg (fun hc => by rw [hnov] at hc; exact Bool.false_ne_true hc.1)]
    simp [hnov, backoffFrom]
  | succ n ih =>
    intro rest attempt delay h
    have hlt : attempt < attempts := by omega
    simp only [List.replicate_succ, List.cons_append, send_loop]
    rw [if_pos ⟨hov, hlt, hrun⟩]
    simp only [List.append_eq]
    rw [ih rest (attempt + 1) (min (delay * 2) (1/5)) (by omega)]
    simp [backoffFrom]

/-- The retry loop when, after `j` overflow failures, an attempt raises
an exception that is not a `can.CanError`: immediate false, no cooldown
sleep, no further attempts. -/
theorem send_loop_exc_abort (st : WState) (tSent : ℚ) (attempts : Nat)
    (t : String) (hov : isOverflowText (lowerStr t) = true)
    (hrun : st.is_running = true) :
    ∀ (j : Nat) (rest : List SendOutcome) (attempt : Nat) (delay : ℚ),
      attempt + j ≤ attempts →
      send_loop st tSent attempts
        (List.replicate j (.canErr t) ++ .exc :: rest) attempt delay =
        ⟨false, st.last_tx_time, j + 1, [], backoffFrom delay j, []⟩ := by
  intro j
  induction j with
  | zero =>
    intro rest attempt delay h
    simp [send_loop, backoffFrom]
  | succ n ih =>
    intro rest attempt delay h
    have hlt : attempt < attempts := by omega
    simp only [List.replicate_succ, List.cons_append, send_loop]
    rw [if_pos ⟨hov, hlt, hrun⟩]
    simp only [List.append_eq]
    rw [ih rest (attempt + 1) (min (delay * 2) (1/5)) (by omega)]
    simp [backoffFrom]

/-- C6: `_send_with_retry_on` returns false on every failing send rather
than raising.  (a) When all `max(1, max_send_retries)` attempts fail
with overflow-classified errors, it returns false after exactly that
many attempts and, when `tx_overflow_cooldown > 0`, first sleeps exactly
the cooldown.  (b) A `can.CanError` not classifiable as overflow at
attempt `j + 1` returns false immediately: exactly `j + 1` attempts, no
cooldown sleep, remaining retry budget unused.  (c) Likewise for any
exception that is not a `can.CanError`. -/
theorem send_failure_never_raises (st : WState) (t tb : String)
    (rest : List SendOutcome) (j : Nat) (tNow tSent : ℚ)
    (hrun : st.is_running = true)
    (hov : isOverflowText (lowerStr t) = true)
    (hnov : isOverflowText (lowerStr tb) = false)
    (hj : j + 1 ≤ (max 1 st.max_send_retries).toNat) :
    ((send_with_retry_on st
        (List.replicate (max 1 st.max_send_retries).toNat (.canErr t))
        tNow tSent).sent = false ∧
      (send_with_retry_on st
        (List.replicate (max 1 st.max_send_retries).toNat (.canErr t))
        tNow tSent).attemptsMade = (max 1 st.max_send_retries).toNat ∧
      (send_with_retry_on st
        (List.replicate (max 1 st.max_send_retries).toNat (.canErr t))
        tNow tSent).cooldownSleeps =
        (if 0 < st.tx_overflow_cooldown then [st.tx_overflow_cooldown]
         else [])) ∧
    ((send_with_retry_on st
        (List.replicate j (.canErr t) ++ .canErr tb :: rest)
        tNow tSent).sent = false ∧
      (send_with_retry_on st
        (List.replicate j (.canErr t) ++ .canErr tb :: rest)
        tNow tSent).attemptsMade = j + 1 ∧
      (send_with_retry_on st
        (List.replicate j (.canErr t) ++ .canErr tb :: rest)
        tNow tSent).cooldownSleeps = []) ∧
    ((send_with_retry_on st
        (List.replicate j (.canErr t) ++ .exc :: rest)
        tNow tSent).sent = false ∧
      (send_with_retry_on st
        (List.replicate j (.canErr t) ++ .exc :: rest)
        tNow tSent).attemptsMade = j + 1 ∧
      (send_with_retry_on st
        (List.replicate j (.canErr t) ++ .exc :: rest)
        tNow tSent).cooldownSleeps = []) := by
  have hone : (1:Int) ≤ max 1 st.max_send_retries := le_max_left _ _
  have hA : 1 ≤ (max 1 st.max_send_retries).toNat := by omega
  refine ⟨?_, ?_, ?_⟩
  · have hrep : (max 1 st.max_send_retries).toNat =
        ((max 1 st.max_send_retries).toNat - 1) + 1 := by omega
    have key := send_loop_overflow_exhaust st tSent
      (max 1 st.max_send_retries).toNat t hov hrun
      ((max 1 st.max_send_retries).toNat - 1) 1
      (max 0 st.send_retry_initial_delay) (by omega)
    rw [← hrep] at key
    have h1 : (send_with_retry_on st
        (List.replicate (max 1 st.max_send_retries).toNat (.canErr t))
        tNow tSent).sent =
        (send_loop st tSent (max 1 st.max_send_retries).toNat
          (List.replicate (max 1 st.max_send_retries).toNat (.canErr t)) 1
          (max 0 st.send_retry_initial_delay)).sent := rfl
    have h2 : (send_with_retry_on st
        (List.replicate (max 1 st.max_send_retries).toNat (.canErr t))
        tNow tSent).attemptsMade =
        (send_loop st tSent (max 1 st.max_send_retries).toNat
          (List.replicate (max 1 st.max_send_retries).toNat (.canErr t)) 1
          (max 0 st.send_retry_initial_delay)).attemptsMade := rfl
    have h3 : (send_with_retry_on st
        (List.replicate (max 1 st.max_send_retries).toNat (.canErr t))
        tNow tSent).cooldownSleeps =
        (send_loop st tSent (max 1 st.max_send_retries).toNat
          (List.replicate (max 1 st.max_send_retries).toNat (.canErr t)) 1
          (max 0 st.send_retry_initial_delay)).cooldownSleeps := rfl
    rw [h1, h2, h3, key]
    exact ⟨rfl, rfl, rfl⟩
  · have key := send_loop_nonoverflow_abort st tSent
      (max 1 st.max_send_retries).toNat t tb hov hnov hrun j rest 1
      (max 0 st.send_retry_initial_delay) (by omega)
    have h1 : (send_with_retry_on st
        (List.replicate j (.canErr t) ++ .canErr tb :: rest)
        tNow tSent).sent =
        (send_loop st tSent (max 1 st.max_send_retries).toNat
          (List.replicate j (.canErr t) ++ .canErr tb :: rest) 1
          (max 0 st.send_retry_initial_delay)).sent := rfl
    have h2 : (send_with_retry_on st
        (List.replicate j (.canErr t) ++ .canErr tb :: rest)
        tNow tSent).attemptsMade =
        (send_loop st tSent (max 1 st.max_send_retries).toNat
          (List.replicate j (.canErr t) ++ .canErr tb :: rest) 1
          (max 0 st.send_retry_initial_delay)).attemptsMade := rfl
    have h3 : (send_with_retry_on st
        (List.replicate j (.canErr t) ++ .canErr tb :: rest)
        tNow tSent).cooldownSleeps =
        (send_loop st tSent (max 1 st.max_send_retries).toNat
          (List.replicate j (.canErr t) ++ .canErr tb :: rest) 1
          (max 0 st.send_retry_initial_delay)).cooldownSleeps := rfl
    rw [h1, h2, h3, key]
    exact ⟨rfl, rfl, rfl⟩
  · have key := send_loop_exc_abort st tSent
      (max 1 st.max_send_retries).toNat t hov hrun j rest 1
      (max 0 st.send_retry_initial_delay) (by omega)
    have h1 : (send_with_retry_on st
        (List.replicate j (.canErr t) ++ .exc :: rest)
        tNow tSent).sent =
        (send_loop st tSent (max 1 st.max_send_retries).toNat
          (List.replicate j (.canErr t) ++ .exc :: rest) 1
          (max 0 st.send_retry_initial_delay)).sent := rfl
    have h2 : (send_with_retry_on st
        (List.replicate j (.canErr t) ++ .exc :: rest)
        tNow tSent).attemptsMade =
        (send_loop st tSent (max 1 st.max_send_retries).toNat
          (List.replicate j (.canErr t) ++ .exc :: rest) 1
          (max 0 st.send_retry_initial_delay)).attemptsMade := rfl
    have h3 : (send_with_retry_on st
        (List.replicate j (.canErr t) ++ .exc :: rest)
        tNow tSent).cooldownSleeps =
        (send_loop st tSent (max 1 st.max_send_retries).toNat
          (List.replicate j (.canErr t) ++ .exc :: rest) 1
          (max 0 st.send_retry_initial_delay)).cooldownSleeps := rfl
    rw [h1, h2, h3, key]
    exact ⟨rfl, rfl, rfl⟩

/-- Witness for C6 with the default configuration (10 attempts,
cooldown 0.05 s), an overflow text, a non-overflow `can.CanError` text
and a foreign exception at attempt 2. -/
theorem send_failure_never_raises_witness :
    ((send_with_retry_on sampleWorker.send
        (List.replicate (max 1 sampleWorker.send.max_send_retries).toNat
          (.canErr "tx buffer overflow")) 0 9).sent = false ∧
      (send_with_retry_on sampleWorker.send
        (List.replicate (max 1 sampleWorker.send.max_send_retries).toNat
          (.canErr "tx buffer overflow")) 0 9).attemptsMade =
        (max 1 sampleWorker.send.max_send_retries).toNat ∧
      (send_with_retry_on sampleWorker.send
        (List.replicate (max 1 sampleWorker.send.max_send_retries).toNat
          (.canErr "tx buffer overflow")) 0 9).cooldownSleeps =
        (if 0 < sampleWorker.send.tx_overflow_cooldown
         then [sampleWorker.send.tx_overflow_cooldown] else [])) ∧
    ((send_with_retry_on sampleWorker.send
        (List.replicate 1 (.canErr "tx buffer overflow") ++
          .canErr "arbitration lost" :: []) 0 9).sent = false ∧
      (send_with_retry_on sampleWorker.send
        (List.replicate 1 (.canErr "tx buffer overflow") ++
          .canErr "arbitration lost" :: []) 0 9).attemptsMade = 1 + 1 ∧
      (send_with_retry_on sampleWorker.send
        (List.replicate 1 (.canErr "tx buffer overflow") ++
          .canErr "arbitration lost" :: []) 0 9).cooldownSleeps = []) ∧
    ((send_with_retry_on sampleWorker.send
        (List.replicate 1 (.canErr "tx buffer overflow") ++ .exc :: []) 0 9).sent
        = false ∧
      (send_with_retry_on sampleWorker.send
        (List.replicate 1 (.canErr "tx buffer overflow") ++ .exc :: []) 0 9).attemptsMade
        = 1 + 1 ∧
      (send_with_retry_on sampleWorker.send
        (List.replicate 1 (.canErr "tx buffer overflow") ++ .exc :: []) 0 9).cooldownSleeps
        = []) :=
  send_failure_never_raises sampleWorker.send "tx buffer overflow"
    "arbitration lost" [] 1 0 9 rfl (by decide) (by decide)
    (by with_unfolding_all decide)

/-! ## C7 -/

/-- The throttle-gap sleep of `_send_with_retry_on`: performed once,
before the first attempt, independent of the send outcomes, exactly the
remaining difference `tx_min_gap - (now - last_tx_time)` when
`tx_min_gap > 0`, a previous send timestamp exists and the elapsed time
falls short of the gap. -/
theorem throttle_sleep_spec (st : WState) (outcomes : List SendOutcome)
    (tNow tSent : ℚ) :
    (send_with_retry_on st outcomes tNow tSent).throttleSleeps =
      if (st.tx_min_gap > 0 ∧ st.last_tx_time > 0) ∧
          st.tx_min_gap - (tNow - st.last_tx_time) > 0
        then [st.tx_min_gap - (tNow - st.last_tx_time)] else [] := by
  show (if st.tx_min_gap > 0 ∧ st.last_tx_time > 0 then
      if st.tx_min_gap - (tNow - st.last_tx_time) > 0
      then [st.tx_min_gap - (tNow - st.last_tx_time)] else [] else []) = _
  by_cases h1 : st.tx_min_gap > 0 ∧ st.last_tx_time > 0
  · by_cases h2 : st.tx_min_gap - (tNow - st.last_tx_time) > 0
    · rw [if_pos h1, if_pos h2, if_pos ⟨h1, h2⟩]
    · rw [if_pos h1, if_neg h2, if_neg (fun hc => h2 hc.2)]
  · rw [if_neg h1, if_neg (fun hc => h1 hc.1)]

/-- A successful `_send_with_retry_on` stamps the shared throttle clock
with the post-send `time.time()` read. -/
theorem sent_updates_clock (st : WState) (outcomes : List SendOutcome)
    (tNow tSent : ℚ)
    (h : (send_with_retry_on st outcomes tNow tSent).sent = true) :
    (send_with_retry_on st outcomes tNow tSent).last_tx_time = tSent := by
  have hl : (send_with_retry_on st outcomes tNow tSent).last_tx_time =
      (send_loop st tSent (max 1 st.max_send_retries).toNat outcomes 1
        (max 0 st.send_retry_initial_delay)).last_tx_time := rfl
  have hs : (send_loop st tSent (max 1 st.max_send_retries).toNat outcomes 1
      (max 0 st.send_retry_initial_delay)).sent = true := h
  rw [hl, send_loop_last_eq, hs]
  simp

/-- The event list of a relay step always consists of the sleeps of its
send call followed by one final event. -/
theorem relaySend_sleeps (w : Worker) (env : PollEnv) (newId : Nat) (m : Msg)
    (destCh : Nat) (dropText : String) :
    ∃ tail, (relaySend w env newId m destCh dropText).2 =
      sleepEvs (send_with_retry_on w.send env.send.outcomes env.send.tNow
        env.send.tSent) ++ [tail] := by
  cases h : (send_with_retry_on w.send env.send.outcomes env.send.tNow
      env.send.tSent).sent
  · exact ⟨.error_occurred dropText, by simp [relaySend, h]⟩
  · exact ⟨.frame_retransmitted (mkRelayMsg newId m env.tFresh) destCh,
      by simp [relaySend, h]⟩

/-- C7: the inter-send gap is enforced once per send call, before the
first attempt (never per retry), sleeping exactly the remaining
difference; and the last-send clock is a single field shared by both
relay directions — a successful Primary-to-Secondary send at `tSent`
makes the next Secondary-to-Primary send throttle against that same
timestamp. -/
theorem throttle_gap_shared_clock
    (st : WState) (outcomes : List SendOutcome) (tNow tSent : ℚ)
    (rules : List (Nat × Nat)) (w : Worker) (env env₂ : PollEnv) (m m₂ : Msg)
    (hrecv : env.recv = .msg m)
    (hrule : rulesGet rules m.arbitration_id = none)
    (hsent : (send_with_retry_on w.send env.send.outcomes env.send.tNow
      env.send.tSent).sent = true)
    (hrecv₂ : env₂.recv = .msg m₂)
    (hgap : 0 < w.send.tx_min_gap)
    (hpos : 0 < env.send.tSent)
    (hlt₂ : env₂.send.tNow - env.send.tSent < w.send.tx_min_gap) :
    ((send_with_retry_on st outcomes tNow tSent).throttleSleeps =
      if (st.tx_min_gap > 0 ∧ st.last_tx_time > 0) ∧
          st.tx_min_gap - (tNow - st.last_tx_time) > 0
        then [st.tx_min_gap - (tNow - st.last_tx_time)] else []) ∧
    ((phaseWorker (pollInputPhase rules w env)).send.last_tx_time =
      env.send.tSent) ∧
    (∃ w₂ evs₂, pollOutputPhase (phaseWorker (pollInputPhase rules w env)) env₂ =
        .ok w₂ evs₂ ∧
      RunEv.slept (w.send.tx_min_gap - (env₂.send.tNow - env.send.tSent)) ∈ evs₂) := by
  have hst := sent_updates_clock w.send env.send.outcomes env.send.tNow
    env.send.tSent hsent
  rw [pollInputPhase_passthrough_sent rules w env m hrecv hrule hsent]
  refine ⟨throttle_sleep_spec st outcomes tNow tSent, ?_, ?_⟩
  · simpa [phaseWorker] using hst
  · simp only [phaseWorker]
    rcases hr : relaySend
      { w with busoff_streak := 0, send := { w.send with last_tx_time :=
          (send_with_retry_on w.send env.send.outcomes env.send.tNow
            env.send.tSent).last_tx_time } } env₂
      m₂.arbitration_id m₂ 1
      "TX buffer overflow: dropped a frame after retries" with ⟨w₂', evs₂'⟩
    refine ⟨w₂', RunEv.frame_received m₂ 0 :: evs₂', ?_, ?_⟩
    · simp only [pollOutputPhase, hrecv₂, hr]
    · obtain ⟨tail, htail⟩ := relaySend_sleeps
        { w with busoff_streak := 0, send := { w.send with last_tx_time :=
            (send_with_retry_on w.send env.send.outcomes env.send.tNow
              env.send.tSent).last_tx_time } } env₂
        m₂.arbitration_id m₂ 1
        "TX buffer overflow: dropped a frame after retries"
      rw [hr] at htail
      have hthr := throttle_sleep_spec
        { w.send with last_tx_time :=
            (send_with_retry_on w.send env.send.outcomes env.send.tNow
              env.send.tSent).last_tx_time }
        env₂.send.outcomes env₂.send.tNow env₂.send.tSent
      simp only [hst] at hthr
      rw [if_pos ⟨⟨hgap, hpos⟩, by linarith⟩] at hthr
      subst htail
      simp only [hst]
      simp [sleepEvs, hthr]

/-- Witness for C7 with `tx_min_gap = 0.1`: a send stamped at `t = 6`
followed by a send in the opposite direction starting at `t = 6.05`
sleeps exactly the remaining `0.05`. -/
theorem throttle_gap_shared_clock_witness :
    ((send_with_retry_on gapWorker.send [.ok] 5 6).throttleSleeps =
      if (gapWorker.send.tx_min_gap > 0 ∧ gapWorker.send.last_tx_time > 0) ∧
          gapWorker.send.tx_min_gap - (5 - gapWorker.send.last_tx_time) > 0
        then [gapWorker.send.tx_min_gap - (5 - gapWorker.send.last_tx_time)]
        else []) ∧
    ((phaseWorker (pollInputPhase [] gapWorker gapEnv1)).send.last_tx_time =
      gapEnv1.send.tSent) ∧
    (∃ w₂ evs₂, pollOutputPhase (phaseWorker (pollInputPhase [] gapWorker gapEnv1))
        gapEnv2 = .ok w₂ evs₂ ∧
      RunEv.slept (gapWorker.send.tx_min_gap -
        (gapEnv2.send.tNow - gapEnv1.send.tSent)) ∈ evs₂) :=
  throttle_gap_shared_clock gapWorker.send [.ok] 5 6 [] gapWorker gapEnv1
    gapEnv2 msg100 msg100 rfl (by decide) (by with_unfolding_all decide) rfl
    (by with_unfolding_all decide) (by with_unfolding_all decide)
    (by with_unfolding_all decide)

/-! ## C2 -/

theorem episodes_succ (k : Nat) : episodes (k + 1) =
    RunEv.recovery_started :: RunEv.recovery_succeeded :: episodes k := by
  simp [episodes, List.replicate_succ]

/-- Event counts of `k` successful recovery episodes. -/
theorem episodes_count (k : Nat) :
    (episodes k).count RunEv.recovery_started = k ∧
    (episodes k).count RunEv.recovery_failed = 0 := by
  induction k with
  | zero => exact ⟨rfl, rfl⟩
  | succ k ih => simp [episodes_succ, List.count_cons, ih.1, ih.2]

/-- A relay step touches only the send state (the throttle clock), never
the recovery fields or the streak. -/
theorem relaySend_fst_streak (w : Worker) (env : PollEnv) (newId : Nat)
    (m : Msg) (destCh : Nat) (dropText : String) :
    (relaySend w env newId m destCh dropText).1.busoff_streak =
      w.busoff_streak := by
  cases h : (send_with_retry_on w.send env.send.outcomes env.send.tNow
      env.send.tSent).sent <;> simp [relaySend, h]

/-- The bus-off handler leaves the streak unchanged, or increments it by
exactly one while emitting exactly one `recovery_started`. -/
theorem busOffHandler_streak (w : Worker) (env : PollEnv) (k : Bool)
    (t : String) :
    (phaseWorker (busOffHandler w env k t)).busoff_streak = w.busoff_streak ∨
    ((phaseWorker (busOffHandler w env k t)).busoff_streak =
        w.busoff_streak + 1 ∧
      (phaseEvs (busOffHandler w env k t)).count .recovery_started = 1) := by
  unfold busOffHandler
  split_ifs <;> first
    | exact Or.inl rfl
    | exact Or.inr ⟨rfl, show List.count RunEv.recovery_started
        [RunEv.recovery_started, RunEv.recovery_succeeded] = 1 from by decide⟩

/-- A successful receive on the input bus resets the streak to 0. -/
theorem pollInputPhase_msg_streak (rules : List (Nat × Nat)) (w : Worker)
    (env : PollEnv) (m : Msg) (hm : env.recv = .msg m) :
    (phaseWorker (pollInputPhase rules w env)).busoff_streak = 0 := by
  cases hrg : rulesGet rules m.arbitration_id
  case none =>
    rcases hr : relaySend { w with busoff_streak := 0 } env m.arbitration_id m 0
      "TX buffer overflow: dropped a frame after retries" with ⟨w', evs⟩
    have hfst := relaySend_fst_streak { w with busoff_streak := 0 } env
      m.arbitration_id m 0 "TX buffer overflow: dropped a frame after retries"
    rw [hr] at hfst
    simp only [pollInputPhase, hm, hrg, hr]
    simpa [phaseWorker] using hfst
  case some R =>
    rcases hr : relaySend { w with busoff_streak := 0 } env R m 0
      "TX buffer overflow: dropped a rewritten frame after retries" with ⟨w', evs⟩
    have hfst := relaySend_fst_streak { w with busoff_streak := 0 } env
      R m 0 "TX buffer overflow: dropped a rewritten frame after retries"
    rw [hr] at hfst
    simp only [pollInputPhase, hm, hrg, hr]
    simpa [phaseWorker] using hfst

/-- A successful receive on the output bus resets the streak to 0. -/
theorem pollOutputPhase_msg_streak (w : Worker) (env : PollEnv) (m : Msg)
    (hm : env.recv = .msg m) :
    (phaseWorker (pollOutputPhase w env)).busoff_streak = 0 := by
  rcases hr : relaySend { w with busoff_streak := 0 } env m.arbitration_id m 1
    "TX buffer overflow: dropped a frame after retries" with ⟨w', evs⟩
  have hfst := relaySend_fst_streak { w with busoff_streak := 0 } env
    m.arbitration_id m 1 "TX buffer overflow: dropped a frame after retries"
  rw [hr] at hfst
  simp only [pollOutputPhase, hm, hr]
  simpa [phaseWorker] using hfst

/-- The relay loop on a script of bus-off receive errors with always
succeeding recoveries: the streak climbs to the budget `max_retries = 3`,
one episode per iteration, then the loop raises the bus-off error. -/
theorem runLoop_busoff_scenario (rules : List (Nat × Nat)) :
    ∀ (n : Nat) (w : Worker), w.retry_on_busoff = true → w.max_retries = 3 →
      0 ≤ w.busoff_streak → w.busoff_streak ≤ 3 →
      4 - w.busoff_streak.toNat ≤ n →
      runLoop rules w (List.replicate n busoffIter) =
        ({ w with busoff_streak := 3 },
         episodes (3 - w.busoff_streak.toNat) ++ [.recovery_failed],
         some "bus off") := by
  intro n
  induction n with
  | zero => intro w h1 h2 h3 h4 h5; omega
  | succ n ih =>
    intro w hrb hmr h0 h3 hn
    have hstep : pollInputPhase rules w busoffIter.inputSide =
        busOffHandler w busoffIter.inputSide true "bus off error" := rfl
    have hmax : max 0 w.max_retries = 3 := by rw [hmr]; decide
    by_cases hs : w.busoff_streak = 3
    · have hge : w.busoff_streak ≥ max 0 w.max_retries := by rw [hmax, hs]
      have hbh : busOffHandler w busoffIter.inputSide true "bus off error" =
          .raised "bus off" w [.recovery_failed] := by
        unfold busOffHandler
        rw [if_pos ⟨hrb, by decide⟩, if_pos hge]
      have hw : ({ w with busoff_streak := 3 } : Worker) = w := by
        cases w
        simp only [Worker.mk.injEq] at hs ⊢
        simp_all
      rw [List.replicate_succ]
      simp only [runLoop, hstep, hbh]
      rw [hw, hs]
      norm_num [episodes]
    · have hslt : w.busoff_streak < 3 := lt_of_le_of_ne h3 hs
      have hnge : ¬ (w.busoff_streak ≥ max 0 w.max_retries) := by
        rw [hmax]; omega
      have hbh : busOffHandler w busoffIter.inputSide true "bus off error" =
          .continueIter { w with busoff_streak := w.busoff_streak + 1 }
            [.recovery_started, .recovery_succeeded] := by
        unfold busOffHandler
        rw [if_pos ⟨hrb, by decide⟩, if_neg hnge,
          if_pos (show busoffIter.inputSide.recovery = true from rfl)]
      rw [List.replicate_succ]
      simp only [runLoop, hstep, hbh]
      rw [ih { w with busoff_streak := w.busoff_streak + 1 } hrb hmr
        (show (0:Int) ≤ w.busoff_streak + 1 by omega)
        (show w.busoff_streak + 1 ≤ 3 by omega)
        (show 4 - (w.busoff_streak + 1).toNat ≤ n by omega)]
      have hk : 3 - w.busoff_streak.toNat =
          (3 - (w.busoff_streak + 1).toNat) + 1 := by omega
      rw [hk, episodes_succ]
      simp

/-- C2: with `max_retries = 3` and every receive raising a bus-off
classified error (recoveries succeeding, so receives keep happening),
exactly 3 recovery episodes are started, no 4th is attempted, and the
run terminates with the bus-off failure surfaced before `finished`.
Moreover the streak is reset to 0 only by a successful receive (on
either bus) and any non-receive change is a single increment paired with
exactly one `recovery_started` emission. -/
theorem busoff_retry_budget (n : Nat) (rules : List (Nat × Nat)) (hn : 4 ≤ n) :
    ((runModel rules sampleWorker ⟨.ok, .ok⟩ (List.replicate n busoffIter)
        false false).count .recovery_started = 3 ∧
      (runModel rules sampleWorker ⟨.ok, .ok⟩ (List.replicate n busoffIter)
        false false).count .recovery_failed = 1 ∧
      RunEv.error_occurred "Error in CAN worker: bus off" ∈
        runModel rules sampleWorker ⟨.ok, .ok⟩ (List.replicate n busoffIter)
          false false ∧
      (runModel rules sampleWorker ⟨.ok, .ok⟩ (List.replicate n busoffIter)
        false false).getLast? = some .finished_emit) ∧
    (∀ (w : Worker) (env : PollEnv) (rules' : List (Nat × Nat)) (m : Msg),
      env.recv = .msg m →
      (phaseWorker (pollInputPhase rules' w env)).busoff_streak = 0) ∧
    (∀ (w : Worker) (env : PollEnv) (m : Msg), env.recv = .msg m →
      (phaseWorker (pollOutputPhase w env)).busoff_streak = 0) ∧
    (∀ (w : Worker) (env : PollEnv) (rules' : List (Nat × Nat)) (k : Bool)
        (t : String), env.recv = .err k t →
      (phaseWorker (pollInputPhase rules' w env)).busoff_streak =
          w.busoff_streak ∨
        ((phaseWorker (pollInputPhase rules' w env)).busoff_streak =
            w.busoff_streak + 1 ∧
          (phaseEvs (pollInputPhase rules' w env)).count .recovery_started
            = 1)) ∧
    (∀ (w : Worker) (env : PollEnv) (k : Bool) (t : String),
      env.recv = .err k t →
      (phaseWorker (pollOutputPhase w env)).busoff_streak =
          w.busoff_streak ∨
        ((phaseWorker (pollOutputPhase w env)).busoff_streak =
            w.busoff_streak + 1 ∧
          (phaseEvs (pollOutputPhase w env)).count .recovery_started = 1)) := by
  have hloop := runLoop_busoff_scenario rules n sampleWorker rfl rfl
    (by decide) (by decide) (by simpa [sampleWorker, initWorker] using hn)
  rw [show (3 : Nat) - sampleWorker.busoff_streak.toNat = 3 from rfl] at hloop
  have htr : runModel rules sampleWorker ⟨.ok, .ok⟩
      (List.replicate n busoffIter) false false =
      (episodes 3 ++ [.recovery_failed]) ++
        ([.error_occurred "Error in CAN worker: bus off"] ++
          finalizeRun true true false false) := by
    simp [runModel, open_buses, hloop]
  refine ⟨⟨?_, ?_, ?_, ?_⟩, ?_, ?_, ?_, ?_⟩
  · rw [htr]
    simp [List.count_append, (episodes_count 3).1, finalizeRun]
  · rw [htr]
    simp [List.count_append, (episodes_count 3).2, finalizeRun]
  · rw [htr]
    simp
  · obtain ⟨pre, hpre⟩ := runModel_ends_with_finalize rules sampleWorker
      ⟨.ok, .ok⟩ (List.replicate n busoffIter) false false
    obtain ⟨hlast, hne⟩ := finalizeRun_getLast
      (open_buses (⟨.ok, .ok⟩ : OpenEnv)).inputOpened
      (open_buses (⟨.ok, .ok⟩ : OpenEnv)).outputOpened
    rw [hpre, List.getLast?_append_of_ne_nil pre hne]
    exact hlast
  · exact fun w env rules' m hm => pollInputPhase_msg_streak rules' w env m hm
  · exact fun w env m hm => pollOutputPhase_msg_streak w env m hm
  · intro w env rules' k t he
    have : pollInputPhase rules' w env = busOffHandler w env k t := by
      simp [pollInputPhase, he]
    rw [this]
    exact busOffHandler_streak w env k t
  · intro w env k t he
    have : pollOutputPhase w env = busOffHandler w env k t := by
      simp [pollOutputPhase, he]
    rw [this]
    exact busOffHandler_streak w env k t

/-- Witness for C2 at `n = 4`: three episodes, then the bus-off failure. -/
theorem busoff_retry_budget_witness :
    ((runModel [] sampleWorker ⟨.ok, .ok⟩ (List.replicate 4 busoffIter)
        false false).count .recovery_started = 3 ∧
      (runModel [] sampleWorker ⟨.ok, .ok⟩ (List.replicate 4 busoffIter)
        false false).count .recovery_failed = 1 ∧
      RunEv.error_occurred "Error in CAN worker: bus off" ∈
        runModel [] sampleWorker ⟨.ok, .ok⟩ (List.replicate 4 busoffIter)
          false false ∧
      (runModel [] sampleWorker ⟨.ok, .ok⟩ (List.replicate 4 busoffIter)
        false false).getLast? = some .finished_emit) ∧
    (phaseWorker (pollInputPhase [] sampleWorker gapEnv1)).busoff_streak = 0 ∧
    (phaseWorker (pollOutputPhase sampleWorker gapEnv1)).busoff_streak = 0 ∧
    ((phaseWorker (pollInputPhase [] sampleWorker busoffIter.inputSide)).busoff_streak =
        sampleWorker.busoff_streak ∨
      ((phaseWorker (pollInputPhase [] sampleWorker busoffIter.inputSide)).busoff_streak =
          sampleWorker.busoff_streak + 1 ∧
        (phaseEvs (pollInputPhase [] sampleWorker busoffIter.inputSide)).count
          .recovery_started = 1)) :=
  ⟨(busoff_retry_budget 4 [] (by decide)).1,
   (busoff_retry_budget 4 [] (by decide)).2.1 sampleWorker gapEnv1 [] msg100 rfl,
   (busoff_retry_budget 4 [] (by decide)).2.2.1 sampleWorker gapEnv1 msg100 rfl,
   (busoff_retry_budget 4 [] (by decide)).2.2.2.1 sampleWorker
     busoffIter.inputSide [] true "bus off error" rfl⟩

end CanRelay
